import Mathlib

/-!
Verification of the hubble-tldm provisioning pipeline
(`src/python/src/hubbledemo/elfmgr.py`, `src/embed-key.py`,
`src/provision_key.py`) against its natural-language specification.

The Python code is shallowly embedded: the parsed view that `pyelftools`
presents of an ELF buffer (sections, symbol tables, raw bytes) becomes a
Lean structure; each operation of the source becomes a pure Lean function
returning an explicit result together with the mutated state or a trace
of the externally visible effects (HTTP requests, sleeps, probe calls,
serial writes).  Machine integers are `Nat`/`Int`; fallible code returns
`Except` or an explicit result constructor per exception class.
-/

namespace HubbleTldm

/-! ## ELF data model

Mirror of the information `pyelftools` exposes to `elfmgr.py`:
a symbol has a name, a value address `st_value`, a declared size
`st_size`, and a section index `st_shndx` which is either a numeric
index or a special string such as `"SHN_UNDEF"`; a section has a name,
a type (`sh_type`, where 8 = `SHT_NOBITS`, i.e. no file backing), a
file offset `sh_offset`, a load address `sh_addr`, a flag telling
whether `pyelftools` classifies it as a `SymbolTableSection`, and the
symbols it holds in table order.  An `ElfFile` is the parsed section
list together with the raw byte buffer (`io.BytesIO` contents). -/

/-- `st_shndx` as surfaced by pyelftools: a numeric section index, or a
special string index such as `"SHN_UNDEF"` or `"SHN_ABS"`. -/
inductive SymShndx where
  | idx (n : Nat)
  | special (s : String)
deriving DecidableEq, Repr

/-- One symbol-table entry. -/
structure ElfSymbol where
  name : String
  st_value : Nat
  st_size : Nat
  st_shndx : SymShndx
deriving DecidableEq, Repr

/-- One section header (plus its symbols when it is a symbol table). -/
structure ElfSection where
  name : String
  sh_type : Nat
  sh_offset : Nat
  sh_addr : Nat
  isSymbolTable : Bool
  symbols : List ElfSymbol
deriving DecidableEq, Repr

/-- The parsed image: section list plus the raw buffer bytes. -/
structure ElfFile where
  sections : List ElfSection
  bytes : List Nat
deriving DecidableEq, Repr

/-- `SHT_NOBITS`: the section type of zero-initialized data, which has
no file backing. -/
def SHT_NOBITS : Nat := 8

/-- Exception classes raised by `_find_symbol` / `_patch_symbol`
(each a `ValueError` with a distinct message in the source). -/
inductive ElfErr where
  | undefinedSym (name : String)
  | specialShndx (name s : String)
  | sectionMissing (name : String)
  | notFound (name : String)
  | sizeMismatch (symSize dataLen : Nat)
  | negativeSeek
deriving DecidableEq, Repr

/-- `sec["sh_offset"] + (sym["st_value"] - sec["sh_addr"])` over Python's
unbounded ints (the difference may be negative). -/
def compute_file_offset (sym : ElfSymbol) (sec : ElfSection) : Int :=
  (sec.sh_offset : Int) + ((sym.st_value : Int) - (sec.sh_addr : Int))

/-- The inner loop of `_find_symbol`: scan one symbol table's entries in
order.  On a name match: `SHN_UNDEF` raises, any other string index
raises, a missing target section raises, a target section named `"bss"`
is skipped (`continue`), otherwise the `(symbol, section)` pair is
returned. -/
def find_in_table (sections : List ElfSection) (name : String) :
    List ElfSymbol → Except ElfErr (Option (ElfSymbol × ElfSection))
  | [] => .ok none
  | sym :: rest =>
    if sym.name = name then
      match sym.st_shndx with
      | .special s =>
        if s = "SHN_UNDEF" then .error (.undefinedSym name)
        else .error (.specialShndx name s)
      | .idx n =>
        match sections.get? n with
        | none => .error (.sectionMissing name)
        | some sec =>
          if sec.name = "bss" then find_in_table sections name rest
          else .ok (some (sym, sec))
    else find_in_table sections name rest

/-- The outer loop of `_find_symbol`: visit each section, scanning only
symbol-table sections; a raised error propagates, a hit returns, and an
exhausted table falls through to the next section. -/
def find_across (sections : List ElfSection) (name : String) :
    List ElfSection → Except ElfErr (Option (ElfSymbol × ElfSection))
  | [] => .ok none
  | sec :: rest =>
    if sec.isSymbolTable then
      match find_in_table sections name sec.symbols with
      | .ok none => find_across sections name rest
      | .ok (some hit) => .ok (some hit)
      | .error e => .error e
    else find_across sections name rest

/-- `_find_symbol(elf, name)`: returns `(symbol, section)` or
`(None, None)` (here `none`), or raises. -/
def find_symbol (elf : ElfFile) (name : String) :
    Except ElfErr (Option (ElfSymbol × ElfSection)) :=
  find_across elf.sections name elf.sections

/-- `io.BytesIO` write-at-position semantics: `seek(pos)` then
`write(data)` overwrites `data.length` bytes at `pos`, zero-filling any
gap between the old end and `pos` and growing the buffer as needed; a
zero-length write leaves the buffer untouched (CPython returns early
and performs no padding). -/
def writeAt (bs : List Nat) (pos : Nat) (data : List Nat) : List Nat :=
  if data = [] then bs
  else bs.take pos ++ List.replicate (pos - bs.length) 0 ++ data
    ++ bs.drop (pos + data.length)

/-- Read `n` bytes at position `pos` (fewer if the buffer ends). -/
def readAt (bs : List Nat) (pos n : Nat) : List Nat :=
  (bs.drop pos).take n

/-- `_patch_symbol(buf, data, symbol_name)`.  Resolution errors and the
size check precede any write, so on every error path the buffer is the
original one; the state is returned explicitly alongside the result.
(`int(sym["st_size"]) or 0` is the identity on a nonnegative integer
size, so it is `sym.st_size` here; a negative computed offset would make
`buf.seek` raise, modelled by `negativeSeek`.) -/
def patch_symbol (elf : ElfFile) (data : List Nat) (symbol_name : String) :
    Except ElfErr Unit × ElfFile :=
  match find_symbol elf symbol_name with
  | .error e => (.error e, elf)
  | .ok none => (.error (.notFound symbol_name), elf)
  | .ok (some (sym, sec)) =>
    let file_off := compute_file_offset sym sec
    let sym_size := sym.st_size
    if sym_size = 0 ∨ sym_size = data.length then
      if file_off < 0 then (.error .negativeSeek, elf)
      else (.ok (), { elf with bytes := writeAt elf.bytes file_off.toNat data })
    else (.error (.sizeMismatch sym_size data.length), elf)

/-! ### Buffer lemmas -/

/-- Reading back `data.length` bytes at `pos` after writing `data` at
`pos` yields `data`. -/
theorem readAt_writeAt (bs : List Nat) (pos : Nat) (data : List Nat) :
    readAt (writeAt bs pos data) pos data.length = data := by
  by_cases h : data = []
  · subst h; simp [writeAt, readAt]
  · have hlen : (bs.take pos ++ List.replicate (pos - bs.length) 0).length = pos := by
      simp only [List.length_append, List.length_take, List.length_replicate]
      omega
    have hre : writeAt bs pos data
        = (bs.take pos ++ List.replicate (pos - bs.length) 0)
          ++ (data ++ bs.drop (pos + data.length)) := by
      simp [writeAt, h, List.append_assoc]
    rw [readAt, hre, List.drop_left' hlen, List.take_left' rfl]

/-- A write leaves every original byte outside `[pos, pos + data.length)`
unchanged. -/
theorem writeAt_outside (bs : List Nat) (pos : Nat) (data : List Nat)
    (i : Nat) (hi : i < bs.length)
    (hout : i < pos ∨ pos + data.length ≤ i) :
    (writeAt bs pos data)[i]? = bs[i]? := by
  by_cases h : data = []
  · simp [writeAt, h]
  · have hlen : (bs.take pos ++ List.replicate (pos - bs.length) 0).length = pos := by
      simp only [List.length_append, List.length_take, List.length_replicate]
      omega
    have hlen2 : (bs.take pos ++ List.replicate (pos - bs.length) 0 ++ data).length
        = pos + data.length := by
      simp only [List.length_append, List.length_take, List.length_replicate]
      omega
    rw [writeAt, if_neg h]
    rcases hout with hlt | hge
    · rw [List.getElem?_append_left (by omega)]
      rw [List.getElem?_append_left (by omega)]
      rw [List.getElem?_append_left (by simp [List.length_take]; omega)]
      exact List.getElem?_take_of_lt hlt
    · rw [List.getElem?_append_right (by omega)]
      rw [hlen2, List.getElem?_drop]
      congr 1
      omega

/-- `_find_symbol` reads only the parsed section metadata, so replacing
the raw bytes does not change its answer. -/
theorem find_symbol_set_bytes (elf : ElfFile) (b : List Nat) (name : String) :
    find_symbol { elf with bytes := b } name = find_symbol elf name := rfl

/-- Unfolding of `patch_symbol` once the symbol has been resolved. -/
theorem patch_symbol_eq (elf : ElfFile) (name : String)
    (sym : ElfSymbol) (sec : ElfSection) (data : List Nat)
    (hfind : find_symbol elf name = .ok (some (sym, sec))) :
    patch_symbol elf data name =
      if sym.st_size = 0 ∨ sym.st_size = data.length then
        (if compute_file_offset sym sec < 0 then (.error .negativeSeek, elf)
         else (.ok (), { elf with
            bytes := writeAt elf.bytes (compute_file_offset sym sec).toNat data }))
      else (.error (.sizeMismatch sym.st_size data.length), elf) := by
  unfold patch_symbol
  rw [hfind]

/-! ### Claim theorems for the symbol patcher -/

/-- **C1.** For every image whose symbol `S` resolves to a section-backed
target with declared size `N > 0` and every payload of exactly `N` bytes
(or any payload when the declared size is 0), `_patch_symbol` succeeds,
re-resolving `S` yields the same target, and reading `data.length` bytes
at the computed file offset `sec.sh_offset + (sym.st_value - sec.sh_addr)`
returns exactly the written payload. -/
theorem patch_symbol_roundtrip (elf : ElfFile) (name : String)
    (sym : ElfSymbol) (sec : ElfSection) (data : List Nat)
    (hfind : find_symbol elf name = .ok (some (sym, sec)))
    (hsize : sym.st_size = 0 ∨ (0 < sym.st_size ∧ data.length = sym.st_size))
    (haddr : sec.sh_addr ≤ sym.st_value) :
    (patch_symbol elf data name).1 = .ok () ∧
    find_symbol (patch_symbol elf data name).2 name = .ok (some (sym, sec)) ∧
    readAt (patch_symbol elf data name).2.bytes
      (compute_file_offset sym sec).toNat data.length = data := by
  have hoff : ¬ compute_file_offset sym sec < 0 := by
    unfold compute_file_offset
    omega
  have hsz : sym.st_size = 0 ∨ sym.st_size = data.length := by
    rcases hsize with h0 | ⟨_, hl⟩
    · exact Or.inl h0
    · exact Or.inr hl.symm
  rw [patch_symbol_eq elf name sym sec data hfind, if_pos hsz, if_neg hoff]
  refine ⟨rfl, hfind, readAt_writeAt elf.bytes (compute_file_offset sym sec).toNat data⟩

/-- Concrete image used to witness the patcher claims: a data section
named `"text"` at file offset 52, load address 4096, and a symbol table
holding `master_key` (address 4100, declared size 4, section index 0). -/
def demoText : ElfSection :=
  { name := "text", sh_type := 1, sh_offset := 52, sh_addr := 4096,
    isSymbolTable := false, symbols := [] }

def demoKeySym : ElfSymbol :=
  { name := "master_key", st_value := 4100, st_size := 4, st_shndx := .idx 0 }

def demoSymtab : ElfSection :=
  { name := "symtab", sh_type := 2, sh_offset := 0, sh_addr := 0,
    isSymbolTable := true, symbols := [demoKeySym] }

def demoElf : ElfFile :=
  { sections := [demoText, demoSymtab], bytes := List.replicate 64 0 }

/-- Witness for `patch_symbol_roundtrip` at a concrete image and a
4-byte payload. -/
theorem patch_symbol_roundtrip_witness :
    (patch_symbol demoElf [1, 2, 3, 4] "master_key").1 = .ok () ∧
    find_symbol (patch_symbol demoElf [1, 2, 3, 4] "master_key").2 "master_key"
      = .ok (some (demoKeySym, demoText)) ∧
    readAt (patch_symbol demoElf [1, 2, 3, 4] "master_key").2.bytes
      (compute_file_offset demoKeySym demoText).toNat 4 = [1, 2, 3, 4] := by
  have h := patch_symbol_roundtrip demoElf "master_key" demoKeySym demoText
    [1, 2, 3, 4] (by rfl) (Or.inr (by decide)) (by decide)
  exact ⟨h.1, h.2.1, h.2.2⟩

/-- **C2.** Once the target is resolved, `_patch_symbol` fails with the
size-mismatch `ValueError` exactly when the declared size is nonzero and
differs from the payload length; every failure leaves the buffer (and the
whole parsed image) unchanged; success overwrites exactly `data.length`
bytes at the computed file offset and leaves every other original byte
unchanged. -/
theorem patch_symbol_size_gate (elf : ElfFile) (name : String)
    (sym : ElfSymbol) (sec : ElfSection) (data : List Nat)
    (hfind : find_symbol elf name = .ok (some (sym, sec))) :
    ((patch_symbol elf data name).1
        = .error (.sizeMismatch sym.st_size data.length)
      ↔ (sym.st_size ≠ 0 ∧ sym.st_size ≠ data.length)) ∧
    (∀ e, (patch_symbol elf data name).1 = .error e
      → (patch_symbol elf data name).2 = elf) ∧
    ((patch_symbol elf data name).1 = .ok () →
      readAt (patch_symbol elf data name).2.bytes
        (compute_file_offset sym sec).toNat data.length = data ∧
      ∀ i, i < elf.bytes.length →
        (i < (compute_file_offset sym sec).toNat ∨
          (compute_file_offset sym sec).toNat + data.length ≤ i) →
        (patch_symbol elf data name).2.bytes[i]? = elf.bytes[i]?) := by
  rw [patch_symbol_eq elf name sym sec data hfind]
  by_cases hsz : sym.st_size = 0 ∨ sym.st_size = data.length
  · rw [if_pos hsz]
    by_cases hoff : compute_file_offset sym sec < 0
    · rw [if_pos hoff]
      refine ⟨?_, fun e _ => rfl, fun hok => absurd hok (by simp)⟩
      simp only [Except.error.injEq]
      constructor
      · intro hcontr
        cases hcontr
      · intro ⟨h1, h2⟩
        rcases hsz with h | h
        · exact absurd h h1
        · exact absurd h h2
    · rw [if_neg hoff]
      refine ⟨?_, fun e he => absurd he (by simp), fun _ => ?_⟩
      · constructor
        · intro hcontr
          exact absurd hcontr (by simp)
        · intro ⟨h1, h2⟩
          rcases hsz with h | h
          · exact absurd h h1
          · exact absurd h h2
      · refine ⟨readAt_writeAt elf.bytes (compute_file_offset sym sec).toNat data, ?_⟩
        intro i hi hout
        exact writeAt_outside elf.bytes (compute_file_offset sym sec).toNat data i hi hout
  · rw [if_neg hsz]
    refine ⟨?_, fun e _ => rfl, fun hok => absurd hok (by simp)⟩
    constructor
    · intro _
      exact ⟨fun h0 => hsz (Or.inl h0), fun hl => hsz (Or.inr hl)⟩
    · intro _
      rfl

/-- Witness for `patch_symbol_size_gate`: a 3-byte payload against a
4-byte symbol fails with the size mismatch and leaves the image as it
was. -/
theorem patch_symbol_size_gate_witness :
    (patch_symbol demoElf [1, 2, 3] "master_key").1 = .error (.sizeMismatch 4 3) ∧
    (patch_symbol demoElf [1, 2, 3] "master_key").2 = demoElf := by
  have h := patch_symbol_size_gate demoElf "master_key" demoKeySym demoText
    [1, 2, 3] (by rfl)
  have herr := (h.1).mpr (by decide)
  exact ⟨herr, h.2.1 _ herr⟩

/-! ### The zero-initialized-data skip (claim C3)

`_find_symbol` skips a candidate exactly when its owning section is
*named* `"bss"` (the section name that Zephyr-built firmware images use
for zero-initialized data).  It never inspects the section type, so a
zero-initialized (`SHT_NOBITS`) section under any other name — in
particular the conventional `".bss"` — is returned, not skipped. -/

/-- A standard-ELF zero-initialized data section named `".bss"`. -/
def dotBssSec : ElfSection :=
  { name := ".bss", sh_type := SHT_NOBITS, sh_offset := 100, sh_addr := 8192,
    isSymbolTable := false, symbols := [] }

def dotBssKeySym : ElfSymbol :=
  { name := "master_key", st_value := 8192, st_size := 32, st_shndx := .idx 0 }

def dotBssSymtab : ElfSection :=
  { name := "symtab", sh_type := 2, sh_offset := 0, sh_addr := 0,
    isSymbolTable := true, symbols := [dotBssKeySym] }

/-- An image whose only `master_key` lives in the `".bss"` section. -/
def dotBssElf : ElfFile :=
  { sections := [dotBssSec, dotBssSymtab], bytes := List.replicate 140 7 }

/-- A Zephyr-style zero-initialized data section, named `"bss"`. -/
def zephyrBssSec : ElfSection :=
  { name := "bss", sh_type := SHT_NOBITS, sh_offset := 200, sh_addr := 536870912,
    isSymbolTable := false, symbols := [] }

def zephyrBssKeySym : ElfSymbol :=
  { name := "master_key", st_value := 536870912, st_size := 32, st_shndx := .idx 0 }

def zephyrSymtab : ElfSection :=
  { name := "symtab", sh_type := 2, sh_offset := 0, sh_addr := 0,
    isSymbolTable := true, symbols := [zephyrBssKeySym] }

/-- An image whose only `master_key` lives in a section named `"bss"`. -/
def zephyrElf : ElfFile :=
  { sections := [zephyrBssSec, zephyrSymtab], bytes := List.replicate 140 7 }

/-- **C3 counterexample.** In an image whose `master_key` is owned by a
zero-initialized (`SHT_NOBITS`, no file backing) section named `".bss"`,
`_find_symbol` does *not* skip the candidate: it returns the symbol and
that section (so patching would write at its meaningless "file offset"),
instead of continuing the scan and failing as NotFound. -/
theorem find_symbol_returns_nobits_dot_bss :
    dotBssSec.sh_type = SHT_NOBITS ∧ dotBssSec.name = ".bss" ∧
    find_symbol dotBssElf "master_key" = .ok (some (dotBssKeySym, dotBssSec)) ∧
    (patch_symbol dotBssElf (List.replicate 32 9) "master_key").1 = .ok () :=
  ⟨rfl, rfl, rfl, rfl⟩

/-- Inner-loop part of the amended C3: a returned owning section is
never named `"bss"`. -/
theorem find_in_table_not_bss (sections : List ElfSection) (name : String) :
    ∀ (syms : List ElfSymbol) (sym : ElfSymbol) (sec : ElfSection),
      find_in_table sections name syms = .ok (some (sym, sec)) →
      sec.name ≠ "bss" := by
  intro syms
  induction syms with
  | nil =>
    intro sym sec h
    exact absurd h (by simp [find_in_table])
  | cons s rest ih =>
    intro sym sec h
    rw [find_in_table] at h
    by_cases hn : s.name = name
    · rw [if_pos hn] at h
      cases hx : s.st_shndx with
      | special str =>
        simp only [hx] at h
        by_cases hu : str = "SHN_UNDEF"
        · rw [if_pos hu] at h
          exact Except.noConfusion h
        · rw [if_neg hu] at h
          exact Except.noConfusion h
      | idx n =>
        simp only [hx] at h
        cases hg : sections.get? n with
        | none =>
          simp only [hg] at h
          exact Except.noConfusion h
        | some sec2 =>
          simp only [hg] at h
          by_cases hb : sec2.name = "bss"
          · rw [if_pos hb] at h
            exact ih sym sec h
          · rw [if_neg hb] at h
            have h2 : s = sym ∧ sec2 = sec := by simpa using h
            rw [← h2.2]
            exact hb
    · rw [if_neg hn] at h
      exact ih sym sec h

/-- Outer-loop part of the amended C3. -/
theorem find_across_not_bss (sections : List ElfSection) (name : String) :
    ∀ (secs : List ElfSection) (sym : ElfSymbol) (sec : ElfSection),
      find_across sections name secs = .ok (some (sym, sec)) →
      sec.name ≠ "bss" := by
  intro secs
  induction secs with
  | nil =>
    intro sym sec h
    exact absurd h (by simp [find_across])
  | cons s rest ih =>
    intro sym sec h
    rw [find_across] at h
    by_cases hs : s.isSymbolTable
    · rw [if_pos hs] at h
      cases hft : find_in_table sections name s.symbols with
      | error e =>
        rw [hft] at h
        exact Except.noConfusion h
      | ok o =>
        cases o with
        | none =>
          rw [hft] at h
          exact ih sym sec h
        | some hit =>
          rw [hft] at h
          have h2 : hit = (sym, sec) := by simpa using h
          rw [h2] at hft
          exact find_in_table_not_bss sections name s.symbols sym sec hft
    · rw [if_neg hs] at h
      exact ih sym sec h

/-- **C3 amended.** Resolution skips a candidate exactly when its owning
section is *named* `"bss"` (Zephyr's name for the zero-initialized-data
section): a returned target is never backed by a section named `"bss"`;
and in an image whose only `master_key` lives in a section named `"bss"`,
the scan continues past it, resolution returns no hit, and patching
fails with the NotFound `ValueError` — whereas a zero-initialized section
under any other name (such as `".bss"`) is not recognized. -/
theorem find_symbol_skips_bss_named_only :
    (∀ (elf : ElfFile) (name : String) (sym : ElfSymbol) (sec : ElfSection),
        find_symbol elf name = .ok (some (sym, sec)) → sec.name ≠ "bss") ∧
    find_symbol zephyrElf "master_key" = .ok none ∧
    (patch_symbol zephyrElf (List.replicate 32 9) "master_key").1
      = .error (.notFound "master_key") :=
  ⟨fun elf name sym sec h => find_across_not_bss elf.sections name elf.sections sym sec h,
   rfl, rfl⟩

/-- Witness for `find_symbol_skips_bss_named_only`, applying its
universal part at the concrete resolvable image. -/
theorem find_symbol_skips_bss_named_only_witness :
    demoText.name ≠ "bss" ∧
    (patch_symbol zephyrElf (List.replicate 32 9) "master_key").1
      = .error (.notFound "master_key") :=
  ⟨find_symbol_skips_bss_named_only.1 demoElf "master_key" demoKeySym demoText rfl,
   find_symbol_skips_bss_named_only.2.2⟩

/-! ## Artifact fetcher (`fetch_elf`)

`fetch_elf(board, timeout)` validates the board argument, honours the
`HUBBLE_DEMO_ELF_FILE` local-file override and the
`HUBBLE_DEMO_ELF_URL_OVERRIDE` base-URL override, then enters a retry
loop of up to 5 attempts.  The environment is passed explicitly; each
attempt's network outcome is a function of the attempt number; the
externally visible I/O (file read, HTTP GET, backoff sleep) is returned
as a trace.  Python `str.strip` / `str.lower` are modelled for the ASCII
strings that board names are. -/

/-- Python `str.strip`'s whitespace set (ASCII part). -/
def pyIsSpace (c : Char) : Bool :=
  c == ' ' || c == '\t' || c == '\n' || c == '\r' ||
    c.toNat == 11 || c.toNat == 12

/-- Python `s.strip()`. -/
def pyStrip (s : String) : String :=
  String.mk (((s.toList.dropWhile pyIsSpace).reverse.dropWhile pyIsSpace).reverse)

/-- Python `s.lower()` on ASCII. -/
def pyLowerChar (c : Char) : Char :=
  if 'A' ≤ c ∧ c ≤ 'Z' then Char.ofNat (c.toNat + 32) else c

def pyLower (s : String) : String :=
  String.mk (s.toList.map pyLowerChar)

/-- `_ELF_BASE_URL` from `elfmgr.py`. -/
def ELF_BASE_URL : String :=
  "https://raw.githubusercontent.com/HubbleNetwork/hubble-tldm/master/merge"

/-- What one `requests.get` call produces: a transport-level exception
(`requests.Timeout` / `requests.ConnectionError`) or a response with a
status code, a content-type flag (`"html" in ctype`), and a body. -/
inductive NetOutcome where
  | transport (msg : String)
  | response (status : Nat) (ctypeHtml : Bool) (body : List Nat)
deriving DecidableEq, Repr

/-- How `fetch_elf` can end, one constructor per exception class. -/
inductive FetchResult where
  | ok (body : List Nat)
  | valueErrorBoard                      -- board must be a non-empty string
  | fileNotFound (url : String)          -- FileNotFoundError on HTTP 404
  | nameErrorBackoff                     -- NameError: name `backoff` is not defined
  | httpError (status : Nat)             -- requests.HTTPError from raise_for_status
  | invalidContentType (url : String)    -- ValueError: Expected ELF bytes, got html
  | connectionFailed (lastMsg : Option String)  -- ConnectionError wrapper
deriving DecidableEq, Repr

/-- Externally visible I/O of a fetch. -/
inductive FetchEff where
  | httpGet (url : String) (attempt : Nat)
  | backoffSleep (attempt : Nat)
  | readLocalFile (path : String)
deriving DecidableEq, Repr

/-- `_RETRY_STATUS = {429, 500, 502, 503, 504}`. -/
def RETRY_STATUS (s : Nat) : Bool :=
  s == 429 || s == 500 || s == 502 || s == 503 || s == 504

/-- The body of `fetch_elf`'s retry loop at a given attempt number.
Every branch of the body returns or raises, so the `for` loop never
reaches a second iteration: in both retry branches the statement
`sleep_s = backoff * (2 ** (attempt - 1))` evaluates the name `backoff`,
which is bound nowhere in `elfmgr.py`, so Python raises `NameError`
before `time.sleep` and `continue` can run (a `NameError` raised in the
`try` body is re-raised unchanged by the final `except Exception`
handler, and one raised in the transport `except` handler propagates
directly).  The loop is therefore exactly its first iteration. -/
def fetch_attempt (net : Nat → NetOutcome) (retries attempt : Nat) (url : String) :
    FetchResult × List FetchEff :=
  match net attempt with
  | .transport msg =>
    if attempt < retries then (.nameErrorBackoff, [.httpGet url attempt])
    else (.connectionFailed (some msg), [.httpGet url attempt])
  | .response status ctypeHtml body =>
    if status = 404 then (.fileNotFound url, [.httpGet url attempt])
    else if RETRY_STATUS status ∧ attempt < retries then
      (.nameErrorBackoff, [.httpGet url attempt])
    else if 400 ≤ status ∧ status < 600 then
      (.httpError status, [.httpGet url attempt])
    else if ctypeHtml then (.invalidContentType url, [.httpGet url attempt])
    else (.ok body, [.httpGet url attempt])

/-- `f"{base_url}/{board}.elf"` with the base-URL override applied
(`os.getenv` yields `none` when unset; an empty string is falsy). -/
def elf_url (envUrlOverride : Option String) (b : String) : String :=
  let base_url := match envUrlOverride with
    | some v => if v = "" then ELF_BASE_URL else v
    | none => ELF_BASE_URL
  base_url ++ "/" ++ b ++ ".elf"

/-- `fetch_elf(board, timeout)`: board validation, the two environment
overrides, then the retry loop (`retries = 5`, starting at attempt 1). -/
def fetch_elf (board : Option String) (envLocalFile envUrlOverride : Option String)
    (localContent : List Nat) (net : Nat → NetOutcome) :
    FetchResult × List FetchEff :=
  match board with
  | none => (.valueErrorBoard, [])
  | some b =>
    if pyStrip b = "" then (.valueErrorBoard, [])
    else
      let local_file : Option String := match envLocalFile with
        | some p => if p = "" then none else some p
        | none => none
      match local_file with
      | some p => (.ok localContent, [.readLocalFile p])
      | none => fetch_attempt net 5 1 (elf_url envUrlOverride b)

/-! ### Claim theorems for the fetcher -/

/-- The `[503, 503, 200]` response schedule of claim C4. -/
def net_503_503_200 : Nat → NetOutcome
  | 1 => .response 503 false [1]
  | 2 => .response 503 false [1]
  | _ => .response 200 false [42]

/-- **C4 (code bug).** On responses `[503, 503, 200]` the fetch does
*not* succeed on the third attempt with two backoff sleeps: handling the
first 503 evaluates `backoff * (2 ** (attempt - 1))` where `backoff` is
an unbound name, so `fetch_elf` raises `NameError` after a single HTTP
request and zero sleeps. -/
theorem fetch_elf_503_503_200_name_error :
    fetch_elf (some "nrf52dk") none none [] net_503_503_200
      = (.nameErrorBackoff, [.httpGet (elf_url none "nrf52dk") 1]) := rfl

/-- The all-500 response schedule of claim C6. -/
def net_all_500 : Nat → NetOutcome := fun _ => .response 500 false []

/-- **C6 (code bug).** Five consecutive 500 responses do *not* produce 5
attempts ending in a `ConnectionError`-class failure: the first 500's
retry branch evaluates the unbound name `backoff` and `fetch_elf` raises
`NameError` after a single attempt.  (Even with `backoff` defined, the
fifth 500 would be raised by `resp.raise_for_status()` as
`requests.HTTPError`, which the final `except Exception` re-raises
unwrapped.) -/
theorem fetch_elf_five_500_name_error :
    fetch_elf (some "nrf52dk") none none [] net_all_500
      = (.nameErrorBackoff, [.httpGet (elf_url none "nrf52dk") 1]) := rfl

/-- **C5.** Whenever the first response has status 404, `fetch_elf`
raises `FileNotFoundError` at once: one HTTP request, no retry, no
backoff sleep, whatever the remaining attempts would have returned. -/
theorem fetch_elf_404_immediate (b : String) (envUrlOverride : Option String)
    (localContent : List Nat) (net : Nat → NetOutcome)
    (ct : Bool) (body : List Nat)
    (hb : ¬ pyStrip b = "")
    (h404 : net 1 = .response 404 ct body) :
    fetch_elf (some b) none envUrlOverride localContent net
      = (.fileNotFound (elf_url envUrlOverride b),
         [.httpGet (elf_url envUrlOverride b) 1]) := by
  simp only [fetch_elf, if_neg hb]
  simp [fetch_attempt, h404]

/-- Witness for `fetch_elf_404_immediate` at a concrete board and a
schedule whose later responses would have succeeded. -/
theorem fetch_elf_404_immediate_witness :
    fetch_elf (some "nrf52dk") none none []
        (fun _ => .response 404 false [])
      = (.fileNotFound (elf_url none "nrf52dk"),
         [.httpGet (elf_url none "nrf52dk") 1]) :=
  fetch_elf_404_immediate "nrf52dk" none [] (fun _ => .response 404 false [])
    false [] (by decide) rfl

/-- **C10.** A non-string board (`none`) or a whitespace-only string is
rejected with `ValueError` before anything else: the result is the same
for every environment override and network behaviour, and the effect
trace is empty — no file read, no HTTP request, no sleep. -/
theorem fetch_elf_board_validation (board : Option String)
    (envLocalFile envUrlOverride : Option String) (localContent : List Nat)
    (net : Nat → NetOutcome)
    (h : board = none ∨ ∃ b, board = some b ∧ pyStrip b = "") :
    fetch_elf board envLocalFile envUrlOverride localContent net
      = (.valueErrorBoard, []) := by
  rcases h with h | ⟨b, hb, hs⟩
  · subst h
    rfl
  · subst hb
    simp [fetch_elf, hs]

/-- Witness for `fetch_elf_board_validation`: a whitespace-only board
with both overrides set and a network that would answer 200. -/
theorem fetch_elf_board_validation_witness :
    fetch_elf (some " \t ") (some "/tmp/override.elf") (some "http://example")
        [7] (fun _ => .response 200 false [9])
      = (.valueErrorBoard, []) :=
  fetch_elf_board_validation (some " \t ") (some "/tmp/override.elf")
    (some "http://example") [7] (fun _ => .response 200 false [9])
    (Or.inr ⟨" \t ", rfl, by decide⟩)

/-! ## Debug-probe flasher (`flash_elf`)

`flash_elf(buf, board)` looks the board up in `_BOARD_TO_JLINK_DEVICE`
(via `dict.get`, yielding `None` when unmapped), materializes the buffer
into a temporary file, then inside `try/except/finally` blocks opens the
J-Link, selects SWD, connects, halts, programs from the file and resets;
any exception from those steps is re-raised as
`RuntimeError(f"Flashing failed: {e}")`, the probe is closed in the
inner `finally` when it was opened, and the temporary file is unlinked
in the outer `finally`.  The probe layer is modelled by a behaviour
record saying which step (if any) raises and with what message; the
probe/filesystem calls appear in an effect trace. -/

/-- `_BOARD_TO_JLINK_DEVICE` from `elfmgr.py`. -/
def BOARD_TO_JLINK_DEVICE : List (String × String) :=
  [("nrf52dk", "nRF52832_xxAA"),
   ("nrf52840dk", "nRF52840_xxAA"),
   ("nrf21540dk", "nRF52840_xxAA"),
   ("xg24_ek2703a", "EFR32MG24BxxxF1536"),
   ("xg22_ek4108a", "EFR32MG22CxxxF512"),
   ("lp_em_cc2340r5", "CC2340R5")]

/-- Which probe step raises (with the exception text), if any. -/
structure ProbeBehavior where
  openErr : Option String
  setTifErr : Option String
  connectErr : Option String
  haltErr : Option String
  flashFileErr : Option String
  resetErr : Option String
deriving DecidableEq, Repr

/-- Externally visible actions of `flash_elf`. -/
inductive FlashEff where
  | createTempFile
  | writeTempChunks (content : List Nat)
  | jlinkNew
  | openProbe
  | setTifSWD
  | connectDev (device : Option String)
  | haltCore
  | flashFromFile
  | resetCore
  | closeProbe
  | unlinkTempFile
deriving DecidableEq, Repr

/-- How `flash_elf` ends: normally, or with the wrapping
`RuntimeError(f"Flashing failed: {e}")`. -/
inductive FlashResult where
  | ok
  | flashingFailed (msg : String)
deriving DecidableEq, Repr

/-- The inner `try` of `flash_elf`: open, set SWD, connect (with the
mapped device identifier, possibly `None`), halt, program, reset; stops
at the first raising step.  Returns the step outcome, the attempted
calls, and whether the probe ended up opened (`jlink.opened()`). -/
def probe_steps (device : Option String) (p : ProbeBehavior) :
    Except String Unit × List FlashEff × Bool :=
  match p.openErr with
  | some e => (.error e, [.openProbe], false)
  | none =>
    match p.setTifErr with
    | some e => (.error e, [.openProbe, .setTifSWD], true)
    | none =>
      match p.connectErr with
      | some e => (.error e, [.openProbe, .setTifSWD, .connectDev device], true)
      | none =>
        match p.haltErr with
        | some e =>
          (.error e, [.openProbe, .setTifSWD, .connectDev device, .haltCore], true)
        | none =>
          match p.flashFileErr with
          | some e =>
            (.error e,
             [.openProbe, .setTifSWD, .connectDev device, .haltCore, .flashFromFile],
             true)
          | none =>
            match p.resetErr with
            | some e =>
              (.error e,
               [.openProbe, .setTifSWD, .connectDev device, .haltCore, .flashFromFile,
                .resetCore], true)
            | none =>
              (.ok (),
               [.openProbe, .setTifSWD, .connectDev device, .haltCore, .flashFromFile,
                .resetCore], true)

/-- The first probe step that raises, in execution order. -/
def first_probe_err (p : ProbeBehavior) : Option String :=
  match p.openErr with
  | some e => some e
  | none =>
    match p.setTifErr with
    | some e => some e
    | none =>
      match p.connectErr with
      | some e => some e
      | none =>
        match p.haltErr with
        | some e => some e
        | none =>
          match p.flashFileErr with
          | some e => some e
          | none => p.resetErr

/-- `flash_elf(buf, board)`.  There is no check that the board lookup
succeeded: a `None` device identifier flows straight into
`jlink.connect`. -/
def flash_elf (buf : List Nat) (board : String) (p : ProbeBehavior) :
    FlashResult × List FlashEff :=
  let device := BOARD_TO_JLINK_DEVICE.lookup (pyLower (pyStrip board))
  let pre : List FlashEff := [.createTempFile, .writeTempChunks buf, .jlinkNew]
  match probe_steps device p with
  | (stepResult, effs, opened) =>
    let closeEffs : List FlashEff := if opened then [.closeProbe] else []
    let res : FlashResult := match stepResult with
      | .ok _ => .ok
      | .error e => .flashingFailed ("Flashing failed: " ++ e)
    (res, pre ++ effs ++ closeEffs ++ [.unlinkTempFile])

/-- The fully healthy probe. -/
def probeAllOk : ProbeBehavior := ⟨none, none, none, none, none, none⟩

/-! ### Claim theorems for the flasher -/

/-- **C7 counterexample.** For the unmapped board `"badboard"` the
lookup yields no device identifier, yet `flash_elf` does *not* fail fast
with an Unsupported error: it creates the temporary file, opens the
probe and connects passing `None` as the device — contradicting the
claim that no temp file is created and no probe I/O is attempted. -/
theorem flash_elf_unmapped_no_failfast :
    BOARD_TO_JLINK_DEVICE.lookup (pyLower (pyStrip "badboard")) = none ∧
    flash_elf [3] "badboard" probeAllOk
      = (.ok,
         [.createTempFile, .writeTempChunks [3], .jlinkNew, .openProbe, .setTifSWD,
          .connectDev none, .haltCore, .flashFromFile, .resetCore, .closeProbe,
          .unlinkTempFile]) :=
  ⟨rfl, rfl⟩

/-- **C7 amended.** For every board missing from
`_BOARD_TO_JLINK_DEVICE`, `flash_elf` proceeds anyway: the temporary
file is created and the probe is opened, and (when the earlier probe
steps do not raise) `connect` is invoked with no device identifier; no
Unsupported-style failure exists before the probe I/O. -/
theorem flash_elf_unmapped_proceeds (buf : List Nat) (board : String)
    (p : ProbeBehavior)
    (h : BOARD_TO_JLINK_DEVICE.lookup (pyLower (pyStrip board)) = none) :
    .createTempFile ∈ (flash_elf buf board p).2 ∧
    .openProbe ∈ (flash_elf buf board p).2 ∧
    (p.openErr = none → p.setTifErr = none →
      .connectDev none ∈ (flash_elf buf board p).2) := by
  obtain ⟨o, t, c, hc, f, r⟩ := p
  cases o <;> cases t <;> cases c <;> cases hc <;> cases f <;> cases r <;>
    simp [flash_elf, probe_steps, h]

/-- Witness for `flash_elf_unmapped_proceeds` at a concrete unmapped
board and a healthy probe. -/
theorem flash_elf_unmapped_proceeds_witness :
    .createTempFile ∈ (flash_elf [3] "otherboard" probeAllOk).2 ∧
    .openProbe ∈ (flash_elf [3] "otherboard" probeAllOk).2 ∧
    .connectDev none ∈ (flash_elf [3] "otherboard" probeAllOk).2 := by
  have h := flash_elf_unmapped_proceeds [3] "otherboard" probeAllOk (by decide)
  exact ⟨h.1, h.2.1, h.2.2 rfl rfl⟩

/-- **C9.** On every exit path of `flash_elf` the temporary file is
unlinked; whenever the probe was opened (the open step did not raise)
it is closed, failures downstream included; and the result is `ok` when
no probe step raises, otherwise the first raising step's exception
wrapped as `RuntimeError("Flashing failed: " ++ e)`. -/
theorem flash_elf_cleanup_and_wrap (buf : List Nat) (board : String)
    (p : ProbeBehavior) :
    .unlinkTempFile ∈ (flash_elf buf board p).2 ∧
    (p.openErr = none → .closeProbe ∈ (flash_elf buf board p).2) ∧
    (flash_elf buf board p).1
      = (match first_probe_err p with
         | none => .ok
         | some e => .flashingFailed ("Flashing failed: " ++ e)) := by
  obtain ⟨o, t, c, hc, f, r⟩ := p
  cases o <;> cases t <;> cases c <;> cases hc <;> cases f <;> cases r <;>
    simp [flash_elf, probe_steps, first_probe_err]

/-- Witness for `flash_elf_cleanup_and_wrap`: the connect step raises,
and still the probe is closed, the temp file unlinked, and the error is
wrapped. -/
theorem flash_elf_cleanup_and_wrap_witness :
    .unlinkTempFile ∈ (flash_elf [1] "nrf52dk" ⟨none, none, some "boom", none, none, none⟩).2 ∧
    .closeProbe ∈ (flash_elf [1] "nrf52dk" ⟨none, none, some "boom", none, none, none⟩).2 ∧
    (flash_elf [1] "nrf52dk" ⟨none, none, some "boom", none, none, none⟩).1
      = .flashingFailed ("Flashing failed: " ++ "boom") := by
  have h := flash_elf_cleanup_and_wrap [1] "nrf52dk"
    ⟨none, none, some "boom", none, none, none⟩
  exact ⟨h.1, h.2.1 rfl, h.2.2⟩

/-! ## Serial provisioner (`provision_key`)

`provision_key(key_string, serial_port, base64_encoded, device_type)`
resets the device via JLinkExe (exiting on failure), sleeps the
3-second settle delay, decodes the key, exits with the key-size error
unless the decoded key is exactly 32 bytes, opens the serial port at
115200 baud (exiting on `SerialException`), then writes the key one
byte at a time and the ASCII decimal timestamp frame `f"{utc_ms}\n"`
one byte at a time, each write followed by the 50 ms sleep, and closes
the port in a `finally`.  The decoded key bytes are the model's input;
reset and serial-open success are behaviour flags. -/

structure SerialBehavior where
  resetOk : Bool
  serialOpenOk : Bool
deriving DecidableEq, Repr

inductive ProvEff where
  | resetDevice
  | sleepResetDelay
  | openSerial
  | writeByte (b : Nat)
  | sleepInterByte
  | closeSerial
deriving DecidableEq, Repr

inductive ProvResult where
  | ok
  | exitResetFailed
  | exitInvalidKeySize
  | exitSerialOpenFailed
deriving DecidableEq, Repr

/-- `for byte in data: ser.write(bytes([byte])); time.sleep(SLEEP_TIME)`. -/
def per_byte_writes : List Nat → List ProvEff
  | [] => []
  | b :: rest => .writeByte b :: .sleepInterByte :: per_byte_writes rest

/-- `f"{utc_ms}\n".encode("ascii")`. -/
def timestamp_frame (utc_ms : Nat) : List Nat :=
  (toString utc_ms).toList.map Char.toNat ++ [10]

/-- `provision_key`, over the decoded key bytes. -/
def provision_key (key_data : List Nat) (utc_ms : Nat) (beh : SerialBehavior) :
    ProvResult × List ProvEff :=
  if beh.resetOk = false then (.exitResetFailed, [.resetDevice])
  else if key_data.length ≠ 32 then
    (.exitInvalidKeySize, [.resetDevice, .sleepResetDelay])
  else if beh.serialOpenOk = false then
    (.exitSerialOpenFailed, [.resetDevice, .sleepResetDelay, .openSerial])
  else
    (.ok, [.resetDevice, .sleepResetDelay, .openSerial]
      ++ per_byte_writes key_data ++ per_byte_writes (timestamp_frame utc_ms)
      ++ [.closeSerial])

/-! ### Claim theorem for the provisioner -/

/-- **C8.** A key whose decoded length is not 32 bytes makes
`provision_key` exit with the key-size error (once the device reset
succeeded, which precedes validation), with no serial-port open and no
serial byte written; a 32-byte key passes validation and the port is
opened. -/
theorem provision_key_size_gate (key_data : List Nat) (utc_ms : Nat)
    (beh : SerialBehavior) :
    (key_data.length ≠ 32 →
      (beh.resetOk = true → (provision_key key_data utc_ms beh).1 = .exitInvalidKeySize) ∧
      .openSerial ∉ (provision_key key_data utc_ms beh).2 ∧
      ∀ b, .writeByte b ∉ (provision_key key_data utc_ms beh).2) ∧
    (key_data.length = 32 → beh.resetOk = true →
      .openSerial ∈ (provision_key key_data utc_ms beh).2) := by
  obtain ⟨ro, so⟩ := beh
  constructor
  · intro hlen
    cases ro <;> simp [provision_key, hlen]
  · intro hlen hro
    have hro2 : ro = true := hro
    subst hro2
    cases so <;> simp [provision_key, hlen]

/-- Witness for `provision_key_size_gate`: a 31-byte key is rejected
with no open and no write; a 32-byte key reaches the port open. -/
theorem provision_key_size_gate_witness :
    (provision_key (List.replicate 31 0) 1700000000000 ⟨true, true⟩).1
      = .exitInvalidKeySize ∧
    .openSerial ∉ (provision_key (List.replicate 31 0) 1700000000000 ⟨true, true⟩).2 ∧
    .openSerial ∈ (provision_key (List.replicate 32 0) 1700000000000 ⟨true, true⟩).2 := by
  have h31 := provision_key_size_gate (List.replicate 31 0) 1700000000000 ⟨true, true⟩
  have h32 := provision_key_size_gate (List.replicate 32 0) 1700000000000 ⟨true, true⟩
  exact ⟨(h31.1 (by decide)).1 rfl, (h31.1 (by decide)).2.1, h32.2 (by decide) rfl⟩

end HubbleTldm
